import Mathlib

/-
Verification of the EditorBar Blender addon (blender-editorbar).

Shallow embedding of the Python sources:
  - editorbar.py            : sidebar toggle operator and layout routines
  - version_adapter.py      : guarded wrappers over host (Blender) operators
  - __init__.py             : preference monitor (polling timer, debounce)
  - src/editorbar/*         : a newer nested copy of the addon

Host-owned state (windows, screens, areas) is modelled explicitly; calls
into the host operator API (bpy.ops.screen.area_split / area_close,
area.type assignment, bpy.app.timers.register/unregister) are recorded as
events, and host non-determinism (whether an operator raises, which area a
split produces, the current Blender version) is an oracle parameter.
Python floats are modelled as rationals; None-able values as Option.
Attribute-existence checks (hasattr) always succeed in the model, since
the modelled objects always carry their attributes.
-/

/-- Calls into the host (Blender) API, recorded as events.
opSplit/opClose mark actual invocations of bpy.ops.screen.area_split /
area_close inside the try blocks of the safe wrappers; setType marks an
area.type assignment; timerReg/timerUnreg mark bpy.app.timers calls for
the properties-split timer. -/
inductive HostEvent where
  | opSplit (direction : String) (factor : Rat)
  | opClose (areaId : Nat)
  | setType (areaId : Nat) (newType : String)
  | timerReg
  | timerUnreg
deriving Repr, DecidableEq

/-- A Blender screen area: identity, editor type string, position and size.
The id field models Python object identity inside bpy collections. -/
structure Area where
  id : Nat
  type : String
  x : Int
  y : Int
  width : Int
  height : Int
deriving Repr, DecidableEq

/-- A Blender screen: an ordered collection of areas (screen.areas). -/
structure Screen where
  areas : List Area
deriving Repr, DecidableEq

/-- A Blender window; window.screen may be None. -/
structure Window where
  screen : Option Screen
deriving Repr, DecidableEq

/-- Oracle for host behaviour during one operator execution:
the Blender version tuple, the area appended by a successful
bpy.ops.screen.area_split (none = the operator raises), whether
bpy.ops.screen.area_close raises, and whether the module-level
_split_timer_func is currently registered. -/
structure Host where
  version : Nat × Nat × Nat
  splitResult : Option Area
  closeRaises : Bool
  splitTimerWasRegistered : Bool
deriving Repr, DecidableEq

/-- Python truthiness of an Option Bool (None is falsy). -/
def optTruthy : Option Bool → Bool
  | none => false
  | some b => b

/-- Lexicographic comparison of version triples, as Python tuple >=. -/
def versionGe (a b : Nat × Nat × Nat) : Bool :=
  decide (b.1 < a.1 ∨ (b.1 = a.1 ∧ (b.2.1 < a.2.1 ∨ (b.2.1 = a.2.1 ∧ b.2.2 ≤ a.2.2))))

/-- From version_adapter.py, is_version_at_least: only the (4, 5, 0)
query is answered; any other argument falls off the end of the function,
which in Python returns None (modelled as none). -/
def is_version_at_least (hostVersion : Nat × Nat × Nat)
    (major minor patch : Nat) : Option Bool :=
  if (major, minor, patch) = (4, 5, 0) then
    some (versionGe hostVersion (4, 5, 0))
  else
    none

namespace nested

/-- From src/editorbar/version_adapter.py, is_version_at_least: identical
to the top-level copy except that it explicitly returns False (some false)
for arguments other than (4, 5, 0). -/
def is_version_at_least (hostVersion : Nat × Nat × Nat)
    (major minor patch : Nat) : Option Bool :=
  if (major, minor, patch) = (4, 5, 0) then
    some (versionGe hostVersion (4, 5, 0))
  else
    some false

end nested

/-- From version_adapter.py, check_area: None guards, window.screen must
be the given screen, the area must occur in screen.areas, its dimensions
must be positive, and its type string non-empty (Python truthiness). -/
def check_area (window : Option Window) (screen : Option Screen)
    (area : Option Area) : Bool :=
  match window, screen, area with
  | some w, some s, some a =>
    if w.screen ≠ some s then false
    else if ¬ a ∈ s.areas then false
    else if a.width ≤ 0 ∨ a.height ≤ 0 then false
    else if a.type = "" then false
    else true
  | _, _, _ => false

/-- From editorbar.py, get_rightmost_area: Python max over x + width,
returning the first maximal element; none on an empty list (Python max
would raise, but all call sites guard non-emptiness). -/
def get_rightmost_area : List Area → Option Area
  | [] => none
  | a :: rest =>
    some (rest.foldl (fun best c => if best.x + best.width < c.x + c.width then c else best) a)

/-- From editorbar.py, has_sidebar_editors: any Outliner or Properties area. -/
def has_sidebar_editors (screen : Screen) : Bool :=
  screen.areas.any (fun a => decide (a.type = "OUTLINER" ∨ a.type = "PROPERTIES"))

/-- From editorbar.py, map_split_factor. -/
def map_split_factor (slider_value : Rat) : Rat :=
  slider_value / 100

/-- From editorbar.py, map_stack_ratio. -/
def map_stack_ratio (percentage : Rat) : Rat :=
  percentage / 100

/-- The four EditorBar preference fields. -/
structure Prefs where
  left_sidebar : Bool
  split_factor : Rat
  stack_ratio : Rat
  flip_editors : Bool
deriving Repr, DecidableEq

/-- The DefaultPrefs instance built inside the except block of
get_editorbar_prefs in editorbar.py. -/
def defaultPrefs : Prefs :=
  { left_sidebar := false, split_factor := 19, stack_ratio := 66, flip_editors := false }

/-- Which object get_editorbar_prefs produced: addon preferences found in
context.preferences.addons, or the DefaultPrefs fallback. -/
inductive PrefsSource where
  | addon (p : Prefs)
  | fallback
deriving Repr, DecidableEq

/-- The preference fields carried by a PrefsSource. -/
def prefsOf : PrefsSource → Prefs
  | .addon p => p
  | .fallback => defaultPrefs

/-- The slice of bpy context that get_editorbar_prefs reads:
the addons mapping (none models a missing/None addons attribute) and
whether the body of its try block raises. -/
structure PrefsContext where
  addons : Option (List (String × Prefs))
  raises : Bool
deriving Repr, DecidableEq

/-- From editorbar.py, get_editorbar_prefs: inside try, reads
context.preferences.addons; if addons is truthy and contains the package,
returns its preferences. The DefaultPrefs fallback is defined and
returned inside the except block, so it is reached only when the try body
raises; when addons simply lacks the package the function falls off the
end and returns None (modelled as none). -/
def get_editorbar_prefs (ctx : PrefsContext) (pkg : String) : Option PrefsSource :=
  if ctx.raises then
    some .fallback
  else
    match ctx.addons with
    | none => none
    | some addons =>
      if addons ≠ [] ∧ (addons.any (fun kv => decide (kv.1 = pkg))) then
        match addons.find? (fun kv => decide (kv.1 = pkg)) with
        | some kv => some (.addon kv.2)
        | none => none
      else
        none

/-- Result of safe_area_split: the Python return value, the screen after
the call (Blender appends the new area to screen.areas on success), and
the recorded host calls. -/
structure SplitOutcome where
  result : Bool
  screen : Screen
  events : List HostEvent
deriving Repr, DecidableEq

/-- From version_adapter.py, safe_area_split: pre-validates with
check_area, validates direction and factor, applies extra 4.2-4.4 checks
(minimum area size 200 along the split axis, factor within [0.1, 0.9])
when the host version is below 4.5.0, and only then invokes
bpy.ops.screen.area_split (the opSplit event). The invocation raises iff
host.splitResult is none, in which case the except path returns False. -/
def safe_area_split (host : Host) (screen : Screen) (window : Window)
    (area : Area) (direction : String) (factor : Rat) : SplitOutcome :=
  if check_area (some window) (some screen) (some area) = false then
    { result := false, screen := screen, events := [] }
  else if ¬ (direction = "VERTICAL" ∨ direction = "HORIZONTAL") then
    { result := false, screen := screen, events := [] }
  else if ¬ (0 < factor ∧ factor < 1) then
    { result := false, screen := screen, events := [] }
  else
    let invoke : SplitOutcome :=
      match host.splitResult with
      | none => { result := false, screen := screen, events := [.opSplit direction factor] }
      | some newArea =>
        { result := true
          screen := { areas := screen.areas ++ [newArea] }
          events := [.opSplit direction factor] }
    if optTruthy (is_version_at_least host.version 4 5 0) = false then
      if direction = "VERTICAL" ∧ area.width < 200 then
        { result := false, screen := screen, events := [] }
      else if direction = "HORIZONTAL" ∧ area.height < 200 then
        { result := false, screen := screen, events := [] }
      else if factor < (0.1 : Rat) ∨ (0.9 : Rat) < factor then
        { result := false, screen := screen, events := [] }
      else invoke
    else invoke

/-- Result of safe_area_close: the Python return value, the screen after
the call (the closed area is removed on success), and recorded host calls. -/
structure CloseOutcome where
  result : Bool
  screen : Screen
  events : List HostEvent
deriving Repr, DecidableEq

/-- From version_adapter.py, safe_area_close: pre-validates with
check_area; when the host version is below 4.5.0 additionally requires at
least 2 areas on the screen and the target area at least 50x50; then
invokes bpy.ops.screen.area_close (the opClose event). The invocation
raises iff host.closeRaises, in which case the except path returns False. -/
def safe_area_close (host : Host) (screen : Screen) (window : Window)
    (area : Area) : CloseOutcome :=
  if check_area (some window) (some screen) (some area) = false then
    { result := false, screen := screen, events := [] }
  else
    let invoke : CloseOutcome :=
      if host.closeRaises then
        { result := false, screen := screen, events := [.opClose area.id] }
      else
        { result := true
          screen := { areas := screen.areas.erase area }
          events := [.opClose area.id] }
    if optTruthy (is_version_at_least host.version 4 5 0) = false then
      if screen.areas.length < 2 then
        { result := false, screen := screen, events := [] }
      else if area.width < 50 ∨ area.height < 50 then
        { result := false, screen := screen, events := [] }
      else invoke
    else invoke

/-- Result of safe_change_area_type: the (possibly re-typed) area, the
Python return value and recorded host calls. -/
structure TypeChangeOutcome where
  area : Area
  result : Bool
  events : List HostEvent
deriving Repr, DecidableEq

/-- The valid_types set of safe_change_area_type in version_adapter.py. -/
def valid_types : List String :=
  ["VIEW_3D", "OUTLINER", "PROPERTIES", "DOPESHEET_EDITOR", "PREFERENCES",
   "INFO", "FILE_BROWSER", "CONSOLE", "TEXT_EDITOR", "NODE_EDITOR",
   "IMAGE_EDITOR", "SEQUENCE_EDITOR", "CLIP_EDITOR", "SPREADSHEET",
   "NLA_EDITOR", "GRAPH_EDITOR"]

/-- From version_adapter.py, safe_change_area_type: rejects types outside
valid_types, otherwise assigns area.type (the setType event). The area is
never None in the model and always has its attributes. -/
def safe_change_area_type (area : Area) (new_type : String) : TypeChangeOutcome :=
  if new_type ∈ valid_types then
    { area := { area with type := new_type }, result := true
      events := [.setType area.id new_type] }
  else
    { area := area, result := false, events := [] }

/-- From editorbar.py, close_sidebars: for each of OUTLINER then
PROPERTIES, if the (current) screen has areas of that type, close the
rightmost one via safe_area_close. -/
def close_sidebars (host : Host) (screen : Screen) (window : Window) :
    Screen × List HostEvent :=
  ["OUTLINER", "PROPERTIES"].foldl
    (fun acc t =>
      let areas := acc.1.areas.filter (fun a => decide (a.type = t))
      match get_rightmost_area areas with
      | none => acc
      | some a =>
        let o := safe_area_close host acc.1 window a
        (o.screen, acc.2 ++ o.events))
    (screen, [])

/-- The main_areas list comprehension of restore_sidebars in editorbar.py. -/
def mainAreas (screen : Screen) : List Area :=
  screen.areas.filter
    (fun a => decide (¬ (a.type = "OUTLINER" ∨ a.type = "PROPERTIES" ∨ a.type = "DOPESHEET_EDITOR")))

/-- Result of restore_sidebars: the Python return value, the screen after
the call, recorded host calls, whether the properties-split timer was
registered, and the arguments (area id, direction, factor) passed to
safe_area_split, when it was called. -/
structure RestoreOutcome where
  result : Bool
  screen : Screen
  events : List HostEvent
  timerRegistered : Bool
  splitArgs : Option (Nat × String × Rat)
deriving Repr, DecidableEq

/-- From editorbar.py, restore_sidebars: reads preferences (none models
the AttributeError raised when get_editorbar_prefs returned None),
computes the vertical split value from 59.0 - split_factor mapped through
map_split_factor and mirrored unless left_sidebar, picks the rightmost
main area, splits it vertically, retypes the last area of screen.areas to
OUTLINER and registers the properties-split timer (unregistering a still
registered one first). -/
def restore_sidebars (host : Host) (screen : Screen) (window : Window)
    (pctx : PrefsContext) (pkg : String) : Option RestoreOutcome :=
  match get_editorbar_prefs pctx pkg with
  | none => none
  | some src =>
    let prefs := prefsOf src
    let split_factor := map_split_factor (59 - prefs.split_factor)
    let split_value := if prefs.left_sidebar then split_factor else 1 - split_factor
    let mains := mainAreas screen
    if mains = [] then
      some { result := false, screen := screen, events := [],
             timerRegistered := false, splitArgs := none }
    else
      match get_rightmost_area mains with
      | none =>
        some { result := false, screen := screen, events := [],
               timerRegistered := false, splitArgs := none }
      | some base_area =>
        let so := safe_area_split host screen window base_area "VERTICAL" split_value
        if so.result = false then
          some { result := false, screen := so.screen, events := so.events,
                 timerRegistered := false,
                 splitArgs := some (base_area.id, "VERTICAL", split_value) }
        else
          match so.screen.areas.getLast? with
          | none => none
          | some sidebar_area =>
            let tc := safe_change_area_type sidebar_area "OUTLINER"
            let s2 : Screen := { areas := so.screen.areas.dropLast ++ [tc.area] }
            let timerEvs :=
              (if host.splitTimerWasRegistered then [HostEvent.timerUnreg] else [])
                ++ [HostEvent.timerReg]
            some { result := true, screen := s2,
                   events := so.events ++ tc.events ++ timerEvs,
                   timerRegistered := true,
                   splitArgs := some (base_area.id, "VERTICAL", split_value) }

/-- The slice of bpy context that EDITORBAR_OT_toggle_sidebar.execute reads. -/
structure Context where
  area : Option Area
  window : Option Window
deriving Repr, DecidableEq

/-- Operator return value: FINISHED or CANCELLED. -/
inductive OpResult where
  | finished
  | cancelled
deriving Repr, DecidableEq

/-- Result of execute: the operator return value, the final screen of the
context's window (none when there is no window or it has no screen), the
recorded host calls, and whether the area.type == PREFERENCES branch was
taken (instrumentation for reachability). -/
structure ExecOutcome where
  result : OpResult
  screen : Option Screen
  events : List HostEvent
  prefsBranch : Bool
deriving Repr, DecidableEq

/-- The screen of the context's window, if any. -/
def windowScreen (ctx : Context) : Option Screen :=
  match ctx.window with
  | none => none
  | some w => w.screen

/-- From editorbar.py, EDITORBAR_OT_toggle_sidebar.execute: guards
(area present and VIEW_3D, the dead PREFERENCES branch, window present,
screen present, check_area), then closes sidebars when any exists, else
restores them; an exception inside the try block yields CANCELLED. In the
model only restore_sidebars can raise (prefs attribute error, modelled by
its none result). -/
def execute (host : Host) (ctx : Context) (pctx : PrefsContext)
    (pkg : String) : ExecOutcome :=
  match ctx.area with
  | none => { result := .cancelled, screen := windowScreen ctx, events := [], prefsBranch := false }
  | some area =>
    if area.type ≠ "VIEW_3D" then
      { result := .cancelled, screen := windowScreen ctx, events := [], prefsBranch := false }
    else if area.type = "PREFERENCES" then
      { result := .cancelled, screen := windowScreen ctx, events := [], prefsBranch := true }
    else
      match ctx.window with
      | none => { result := .cancelled, screen := none, events := [], prefsBranch := false }
      | some window =>
        match window.screen with
        | none => { result := .cancelled, screen := none, events := [], prefsBranch := false }
        | some screen =>
          if check_area (some window) (some screen) (some area) = false then
            { result := .cancelled, screen := some screen, events := [], prefsBranch := false }
          else if has_sidebar_editors screen then
            let o := close_sidebars host screen window
            { result := .finished, screen := some o.1, events := o.2, prefsBranch := false }
          else
            match restore_sidebars host screen window pctx pkg with
            | none =>
              { result := .cancelled, screen := some screen, events := [], prefsBranch := false }
            | some r =>
              { result := .finished, screen := some r.screen, events := r.events, prefsBranch := false }

/-- A snapshot of the four preference fields, as built by the
current_prefs dict in EditorBarPreferenceMonitor._timer_callback. -/
structure PrefSnapshot where
  left_sidebar : Bool
  split_factor : Rat
  stack_ratio : Rat
  flip_editors : Bool
deriving Repr, DecidableEq

/-- The monitor's mutable state read by _timer_callback: whether the
polling timer is active, and the previously stored snapshot (none models
the initial empty dict, which differs from every full snapshot). -/
structure MonitorState where
  timer_active : Bool
  last_prefs : Option PrefSnapshot
deriving Repr, DecidableEq

/-- The slice of bpy context that _timer_callback reads: whether we are
still in the addon preferences context, whether
version_adapter.validate_timer_context holds, and the addon preference
snapshot when context.preferences.addons is available and the lookup does
not raise (none otherwise). -/
structure TimerCtx where
  in_prefs_context : Bool
  timer_context_valid : Bool
  addon_prefs : Option PrefSnapshot
deriving Repr, DecidableEq

/-- Result of _timer_callback: the new monitor state, the Python return
value (none stops the timer, some d re-arms it after d seconds), and
whether schedule_immediate_update was called. -/
structure TimerOutcome where
  state : MonitorState
  ret : Option Rat
  scheduled : Bool
deriving Repr, DecidableEq

/-- From __init__.py, EditorBarPreferenceMonitor._timer_callback: stops
the timer (returns None) outside the preferences context or on an invalid
timer context; returns 0.15 without touching state when preferences are
unreadable; otherwise compares the current snapshot with _last_prefs and,
when they differ, stores the snapshot and schedules a debounced update;
returns 0.15 in every non-stopping run. -/
def timer_callback (st : MonitorState) (tc : TimerCtx) : TimerOutcome :=
  if tc.in_prefs_context = false then
    { state := { st with timer_active := false }, ret := none, scheduled := false }
  else if tc.timer_context_valid = false then
    { state := { st with timer_active := false }, ret := none, scheduled := false }
  else
    match tc.addon_prefs with
    | none => { state := st, ret := some (0.15 : Rat), scheduled := false }
    | some cur =>
      if some cur ≠ st.last_prefs then
        { state := { st with last_prefs := some cur }, ret := some (0.15 : Rat),
          scheduled := true }
      else
        { state := st, ret := some (0.15 : Rat), scheduled := false }

/-- From __init__.py (and identically src/editorbar/__init__.py),
EditorBarPreferenceMonitor.schedule_immediate_update, modelled over the
number of currently registered _immediate_update timers: if one is
registered (is_registered, pending greater than 0) unregister it, then
register a new one with the 0.05 second debounce delay. -/
def schedule_immediate_update (pending : Nat) : Nat :=
  (if 0 < pending then pending - 1 else pending) + 1

/-- C9: the claim that the two copies of is_version_at_least agree on
every argument fails: for the query (4, 2, 0) on host version (4, 4, 0),
the top-level copy falls off the end and returns None, while the nested
copy returns False. -/
theorem c9_counterexample :
    is_version_at_least (4, 4, 0) 4 2 0 ≠ nested.is_version_at_least (4, 4, 0) 4 2 0 := by
  decide

/-- C9 (amended): the two copies of is_version_at_least agree on every
argument up to Python truthiness: on the (4, 5, 0) query they return the
same boolean, and on every other query the top-level copy returns None
and the nested copy returns False, both falsy. -/
theorem c9_amended (hv : Nat × Nat × Nat) (major minor patch : Nat) :
    optTruthy (is_version_at_least hv major minor patch) =
      optTruthy (nested.is_version_at_least hv major minor patch) := by
  unfold is_version_at_least nested.is_version_at_least
  split <;> rfl

/-- C8: when the addons mapping is present but lacks the package and the
try body does not raise, get_editorbar_prefs returns None; the
DefaultPrefs fallback is produced only on the raising path, and it
carries left_sidebar = false, split_factor = 19, stack_ratio = 66,
flip_editors = false. -/
theorem c8_prefs_none_vs_fallback :
    (∀ (ctx : PrefsContext) (pkg : String) (addons : List (String × Prefs)),
      ctx.raises = false → ctx.addons = some addons →
      (∀ kv ∈ addons, kv.1 ≠ pkg) →
      get_editorbar_prefs ctx pkg = none) ∧
    (∀ (ctx : PrefsContext) (pkg : String),
      get_editorbar_prefs ctx pkg = some .fallback → ctx.raises = true) ∧
    prefsOf .fallback =
      { left_sidebar := false, split_factor := 19, stack_ratio := 66, flip_editors := false } := by
  refine ⟨?_, ?_, rfl⟩
  · intro ctx pkg addons hr ha hmiss
    unfold get_editorbar_prefs
    rw [if_neg (by simp [hr]), ha]
    have hany : addons.any (fun kv => decide (kv.1 = pkg)) = false := by
      simp only [List.any_eq_false]
      intro kv hkv
      simp [hmiss kv hkv]
    simp [hany]
  · intro ctx pkg h
    by_contra hr
    rw [Bool.not_eq_true] at hr
    unfold get_editorbar_prefs at h
    rw [if_neg (by simp [hr])] at h
    split at h
    · simp at h
    · split at h
      · split at h
        · simp at h
        · simp at h
      · simp at h

/-- C8 witness: a context whose addons list lacks the package yields None. -/
theorem c8_witness :
    get_editorbar_prefs { addons := some [("other_addon", defaultPrefs)], raises := false }
      "editorbar" = none :=
  c8_prefs_none_vs_fallback.1
    { addons := some [("other_addon", defaultPrefs)], raises := false }
    "editorbar" [("other_addon", defaultPrefs)] rfl rfl (by decide)

/-- C7: under the invariant that at most one _immediate_update timer is
pending, schedule_immediate_update leaves exactly one registered: it
unregisters the pending one, if any, then registers a new one. -/
theorem c7_single_pending_debounce (pending : Nat) (h : pending ≤ 1) :
    schedule_immediate_update pending = 1 := by
  unfold schedule_immediate_update
  split <;> omega

/-- C7 witness: with no pending timer, exactly one is registered after the call. -/
theorem c7_witness : schedule_immediate_update 0 = 1 :=
  c7_single_pending_debounce 0 (by decide)

/-- C6: while the preferences context and timer context are valid and the
addon preferences are readable, _timer_callback schedules a debounced
update iff the four-field snapshot differs from the stored one; when it
schedules, the current snapshot becomes the stored one; and every such
run returns 0.15. -/
theorem c6_timer_callback (st : MonitorState) (tc : TimerCtx) (cur : PrefSnapshot)
    (h1 : tc.in_prefs_context = true) (h2 : tc.timer_context_valid = true)
    (h3 : tc.addon_prefs = some cur) :
    ((timer_callback st tc).scheduled = true ↔ some cur ≠ st.last_prefs) ∧
    ((timer_callback st tc).scheduled = true →
      (timer_callback st tc).state.last_prefs = some cur) ∧
    (timer_callback st tc).ret = some (0.15 : Rat) := by
  unfold timer_callback
  rw [h1, h2, h3]
  by_cases hd : some cur ≠ st.last_prefs
  · simp [hd]
  · simp [hd]

/-- C6 witness: an initial monitor state (empty stored snapshot) with a
readable snapshot schedules the update, stores the snapshot and returns 0.15. -/
theorem c6_witness :
    ((timer_callback { timer_active := true, last_prefs := none }
        { in_prefs_context := true, timer_context_valid := true,
          addon_prefs := some { left_sidebar := false, split_factor := 19,
                                stack_ratio := 66, flip_editors := false } }).scheduled = true ↔
      some { left_sidebar := false, split_factor := 19, stack_ratio := 66,
             flip_editors := false } ≠ (none : Option PrefSnapshot)) ∧
    ((timer_callback { timer_active := true, last_prefs := none }
        { in_prefs_context := true, timer_context_valid := true,
          addon_prefs := some { left_sidebar := false, split_factor := 19,
                                stack_ratio := 66, flip_editors := false } }).scheduled = true →
      (timer_callback { timer_active := true, last_prefs := none }
        { in_prefs_context := true, timer_context_valid := true,
          addon_prefs := some { left_sidebar := false, split_factor := 19,
                                stack_ratio := 66, flip_editors := false } }).state.last_prefs =
        some { left_sidebar := false, split_factor := 19, stack_ratio := 66,
               flip_editors := false }) ∧
    (timer_callback { timer_active := true, last_prefs := none }
        { in_prefs_context := true, timer_context_valid := true,
          addon_prefs := some { left_sidebar := false, split_factor := 19,
                                stack_ratio := 66, flip_editors := false } }).ret =
      some (0.15 : Rat) :=
  c6_timer_callback
    { timer_active := true, last_prefs := none }
    { in_prefs_context := true, timer_context_valid := true,
      addon_prefs := some { left_sidebar := false, split_factor := 19,
                            stack_ratio := 66, flip_editors := false } }
    { left_sidebar := false, split_factor := 19, stack_ratio := 66, flip_editors := false }
    rfl rfl rfl

/-- C10: the area.type == PREFERENCES branch of
EDITORBAR_OT_toggle_sidebar.execute is dead: every execution reaching it
has already passed the guard establishing area.type == VIEW_3D, so the
instrumentation flag for that branch is false on all inputs. -/
theorem c10_preferences_branch_dead (host : Host) (ctx : Context)
    (pctx : PrefsContext) (pkg : String) :
    (execute host ctx pctx pkg).prefsBranch = false := by
  unfold execute
  cases ctx.area with
  | none => rfl
  | some a =>
    dsimp only
    by_cases hv : a.type = "VIEW_3D"
    · rw [if_neg (by simp [hv]), if_neg (by rw [hv]; decide)]
      cases ctx.window with
      | none => rfl
      | some w =>
        dsimp only
        cases hws : w.screen with
        | none => rfl
        | some s =>
          dsimp only
          split
          · rfl
          · split
            · rfl
            · split <;> rfl
    · rw [if_pos hv]

/-- C3: safe_area_split invokes the host split operator exactly when all
guards pass: check_area holds, the direction is VERTICAL or HORIZONTAL,
the factor is strictly between 0 and 1, and, below host version 4.5.0,
the factor lies in [0.1, 0.9] and the area measures at least 200 along
the split axis; when any guard fails it returns False with no invocation
and an unchanged screen. -/
theorem c3_split_guards (host : Host) (screen : Screen) (window : Window)
    (area : Area) (direction : String) (factor : Rat) :
    ((HostEvent.opSplit direction factor ∈
        (safe_area_split host screen window area direction factor).events) ↔
      (check_area (some window) (some screen) (some area) = true ∧
       (direction = "VERTICAL" ∨ direction = "HORIZONTAL") ∧
       0 < factor ∧ factor < 1 ∧
       (optTruthy (is_version_at_least host.version 4 5 0) = false →
         (0.1 : Rat) ≤ factor ∧ factor ≤ (0.9 : Rat) ∧
         (direction = "VERTICAL" → 200 ≤ area.width) ∧
         (direction = "HORIZONTAL" → 200 ≤ area.height)))) ∧
    (¬ (check_area (some window) (some screen) (some area) = true ∧
        (direction = "VERTICAL" ∨ direction = "HORIZONTAL") ∧
        0 < factor ∧ factor < 1 ∧
        (optTruthy (is_version_at_least host.version 4 5 0) = false →
          (0.1 : Rat) ≤ factor ∧ factor ≤ (0.9 : Rat) ∧
          (direction = "VERTICAL" → 200 ≤ area.width) ∧
          (direction = "HORIZONTAL" → 200 ≤ area.height))) →
      (safe_area_split host screen window area direction factor).result = false ∧
      (safe_area_split host screen window area direction factor).events = [] ∧
      (safe_area_split host screen window area direction factor).screen = screen) := by
  unfold safe_area_split
  cases hsr : host.splitResult <;>
    split_ifs with h1 h2 h3 h4 h5 h6 h7 <;>
    constructor <;>
    simp_all [not_lt, Bool.not_eq_true, Bool.not_eq_false, not_or, not_and] <;>
    first
      | tauto
      | linarith
      | skip
  all_goals intro hge
  all_goals rcases h7 with h7a | h7a
  all_goals first | linarith | exact h7a

/-- C3 witness: with all guards passing on a 4.5.0 host, the operator is
invoked (the opSplit event is recorded). -/
theorem c3_witness :
    HostEvent.opSplit "VERTICAL" (1/2 : Rat) ∈
      (safe_area_split
        { version := (4, 5, 0),
          splitResult := some { id := 7, type := "VIEW_3D", x := 0, y := 0,
                                width := 400, height := 300 },
          closeRaises := false, splitTimerWasRegistered := false }
        { areas := [{ id := 1, type := "VIEW_3D", x := 0, y := 0,
                      width := 800, height := 600 }] }
        { screen := some { areas := [{ id := 1, type := "VIEW_3D", x := 0, y := 0,
                                       width := 800, height := 600 }] } }
        { id := 1, type := "VIEW_3D", x := 0, y := 0, width := 800, height := 600 }
        "VERTICAL" (1/2 : Rat)).events :=
  (c3_split_guards
    { version := (4, 5, 0),
      splitResult := some { id := 7, type := "VIEW_3D", x := 0, y := 0,
                            width := 400, height := 300 },
      closeRaises := false, splitTimerWasRegistered := false }
    { areas := [{ id := 1, type := "VIEW_3D", x := 0, y := 0,
                  width := 800, height := 600 }] }
    { screen := some { areas := [{ id := 1, type := "VIEW_3D", x := 0, y := 0,
                                   width := 800, height := 600 }] } }
    { id := 1, type := "VIEW_3D", x := 0, y := 0, width := 800, height := 600 }
    "VERTICAL" (1/2 : Rat)).1.mpr
    (by refine ⟨by decide, Or.inl rfl, by norm_num, by norm_num, ?_⟩
        intro hlt
        exact absurd hlt (by decide))

/-- C4: below host version 4.5.0, safe_area_close returns False without
invoking the host close operator whenever the screen has fewer than two
areas or the target area is under 50 wide or 50 tall; from 4.5.0 on those
extra checks are skipped and any call passing check_area invokes the
operator. -/
theorem c4_close_guards (host : Host) (screen : Screen) (window : Window)
    (area : Area) :
    (optTruthy (is_version_at_least host.version 4 5 0) = false →
      (screen.areas.length < 2 ∨ area.width < 50 ∨ area.height < 50) →
      (safe_area_close host screen window area).result = false ∧
      (safe_area_close host screen window area).events = []) ∧
    (optTruthy (is_version_at_least host.version 4 5 0) = true →
      check_area (some window) (some screen) (some area) = true →
      HostEvent.opClose area.id ∈ (safe_area_close host screen window area).events) := by
  unfold safe_area_close
  constructor
  · intro hver hsmall
    by_cases hca : check_area (some window) (some screen) (some area) = false
    · rw [if_pos hca]
      exact ⟨rfl, rfl⟩
    · rw [if_neg hca]
      dsimp only
      rw [if_pos hver]
      by_cases hl : screen.areas.length < 2
      · rw [if_pos hl]
        exact ⟨rfl, rfl⟩
      · rw [if_neg hl]
        have hw : area.width < 50 ∨ area.height < 50 := by tauto
        rw [if_pos hw]
        exact ⟨rfl, rfl⟩
  · intro hver hca
    rw [if_neg (by simp [hca]), if_neg (by simp [hver])]
    by_cases hr : host.closeRaises <;> simp [hr]

/-- C4 witness: on a 4.5.0 host, a single-area screen passing check_area
still reaches the operator invocation. -/
theorem c4_witness :
    HostEvent.opClose 1 ∈
      (safe_area_close
        { version := (4, 5, 0), splitResult := none,
          closeRaises := false, splitTimerWasRegistered := false }
        { areas := [{ id := 1, type := "OUTLINER", x := 0, y := 0,
                      width := 30, height := 30 }] }
        { screen := some { areas := [{ id := 1, type := "OUTLINER", x := 0, y := 0,
                                       width := 30, height := 30 }] } }
        { id := 1, type := "OUTLINER", x := 0, y := 0, width := 30, height := 30 }).events :=
  (c4_close_guards
    { version := (4, 5, 0), splitResult := none,
      closeRaises := false, splitTimerWasRegistered := false }
    { areas := [{ id := 1, type := "OUTLINER", x := 0, y := 0,
                  width := 30, height := 30 }] }
    { screen := some { areas := [{ id := 1, type := "OUTLINER", x := 0, y := 0,
                                   width := 30, height := 30 }] } }
    { id := 1, type := "OUTLINER", x := 0, y := 0, width := 30, height := 30 }).2
    (by decide) (by decide)

/-- The fold inside get_rightmost_area returns the initial area or a list
element, and its x + width dominates the initial area and every element. -/
lemma rightmost_foldl_spec (l : List Area) (init : Area) :
    (l.foldl (fun best c => if best.x + best.width < c.x + c.width then c else best) init = init ∨
      l.foldl (fun best c => if best.x + best.width < c.x + c.width then c else best) init ∈ l) ∧
    init.x + init.width ≤
      (l.foldl (fun best c => if best.x + best.width < c.x + c.width then c else best) init).x +
      (l.foldl (fun best c => if best.x + best.width < c.x + c.width then c else best) init).width ∧
    ∀ b ∈ l, b.x + b.width ≤
      (l.foldl (fun best c => if best.x + best.width < c.x + c.width then c else best) init).x +
      (l.foldl (fun best c => if best.x + best.width < c.x + c.width then c else best) init).width := by
  induction l generalizing init with
  | nil => exact ⟨Or.inl rfl, le_refl _, by simp⟩
  | cons c cs ih =>
    simp only [List.foldl_cons]
    obtain ⟨hmem, hle, hall⟩ := ih (if init.x + init.width < c.x + c.width then c else init)
    have hinit : init.x + init.width ≤
        (if init.x + init.width < c.x + c.width then c else init).x +
        (if init.x + init.width < c.x + c.width then c else init).width := by
      split_ifs with h
      · exact le_of_lt h
      · exact le_refl _
    have hc : c.x + c.width ≤
        (if init.x + init.width < c.x + c.width then c else init).x +
        (if init.x + init.width < c.x + c.width then c else init).width := by
      split_ifs with h
      · exact le_refl _
      · exact le_of_not_lt h
    refine ⟨?_, le_trans hinit hle, ?_⟩
    · rcases hmem with h | h
      · rw [h]
        split_ifs with h2
        · exact Or.inr (List.mem_cons_self _ _)
        · exact Or.inl rfl
      · exact Or.inr (List.mem_cons_of_mem _ h)
    · intro b hb
      rcases List.mem_cons.mp hb with hbc | hbs
      · subst hbc
        exact le_trans hc hle
      · exact hall b hbs

/-- get_rightmost_area returns a member of the list that maximizes x + width. -/
lemma get_rightmost_area_spec (l : List Area) (a : Area)
    (h : get_rightmost_area l = some a) :
    a ∈ l ∧ ∀ b ∈ l, b.x + b.width ≤ a.x + a.width := by
  cases l with
  | nil => simp [get_rightmost_area] at h
  | cons c cs =>
    unfold get_rightmost_area at h
    injection h with h
    subst h
    obtain ⟨hmem, hle, hall⟩ := rightmost_foldl_spec cs c
    constructor
    · rcases hmem with h | h
      · rw [h]
        exact List.mem_cons_self _ _
      · exact List.mem_cons_of_mem _ h
    · intro b hb
      rcases List.mem_cons.mp hb with hbc | hbs
      · subst hbc
        exact hle
      · exact hall b hbs

/-- When safe_area_split returns False the screen is unchanged. -/
lemma safe_area_split_fail_screen (host : Host) (screen : Screen) (window : Window)
    (area : Area) (direction : String) (factor : Rat)
    (h : (safe_area_split host screen window area direction factor).result = false) :
    (safe_area_split host screen window area direction factor).screen = screen := by
  unfold safe_area_split at h ⊢
  cases hsr : host.splitResult <;> split_ifs at h ⊢ <;> simp_all

/-- When safe_area_split returns True, the host appended its new area to
screen.areas. -/
lemma safe_area_split_succ_screen (host : Host) (screen : Screen) (window : Window)
    (area : Area) (direction : String) (factor : Rat)
    (h : (safe_area_split host screen window area direction factor).result = true) :
    ∃ na, host.splitResult = some na ∧
      (safe_area_split host screen window area direction factor).screen =
        { areas := screen.areas ++ [na] } := by
  unfold safe_area_split at h ⊢
  cases hsr : host.splitResult <;> split_ifs at h ⊢ <;> simp_all

/-- C2: with readable preferences, restore_sidebars returns False and
leaves everything untouched when the screen has no main area (one that is
not OUTLINER, PROPERTIES or DOPESHEET_EDITOR); otherwise it picks the
rightmost main area (maximizing x + width) and splits it vertically at
(59 - split_factor)/100 when left_sidebar is set and at 1 minus that
value otherwise; when that split fails it returns False with the screen
unchanged and no timer registered, and when it succeeds it retypes the
last area of screen.areas to OUTLINER, registers the properties-split
timer and returns True. -/
theorem c2_restore_sidebars (host : Host) (screen : Screen) (window : Window)
    (pctx : PrefsContext) (pkg : String) (src : PrefsSource)
    (hp : get_editorbar_prefs pctx pkg = some src) :
    (mainAreas screen = [] →
      restore_sidebars host screen window pctx pkg =
        some { result := false, screen := screen, events := [],
               timerRegistered := false, splitArgs := none }) ∧
    (mainAreas screen ≠ [] →
      ∃ a, get_rightmost_area (mainAreas screen) = some a ∧
        a ∈ mainAreas screen ∧
        (∀ b ∈ mainAreas screen, b.x + b.width ≤ a.x + a.width) ∧
        ((safe_area_split host screen window a "VERTICAL"
            (if (prefsOf src).left_sidebar then map_split_factor (59 - (prefsOf src).split_factor)
             else 1 - map_split_factor (59 - (prefsOf src).split_factor))).result = false →
          restore_sidebars host screen window pctx pkg =
            some { result := false, screen := screen,
                   events := (safe_area_split host screen window a "VERTICAL"
                     (if (prefsOf src).left_sidebar then map_split_factor (59 - (prefsOf src).split_factor)
                      else 1 - map_split_factor (59 - (prefsOf src).split_factor))).events,
                   timerRegistered := false,
                   splitArgs := some (a.id, "VERTICAL",
                     (if (prefsOf src).left_sidebar then map_split_factor (59 - (prefsOf src).split_factor)
                      else 1 - map_split_factor (59 - (prefsOf src).split_factor))) }) ∧
        ((safe_area_split host screen window a "VERTICAL"
            (if (prefsOf src).left_sidebar then map_split_factor (59 - (prefsOf src).split_factor)
             else 1 - map_split_factor (59 - (prefsOf src).split_factor))).result = true →
          ∃ na, host.splitResult = some na ∧
            restore_sidebars host screen window pctx pkg =
              some { result := true,
                     screen := { areas := screen.areas ++ [{ na with type := "OUTLINER" }] },
                     events := (safe_area_split host screen window a "VERTICAL"
                         (if (prefsOf src).left_sidebar then map_split_factor (59 - (prefsOf src).split_factor)
                          else 1 - map_split_factor (59 - (prefsOf src).split_factor))).events ++
                       [HostEvent.setType na.id "OUTLINER"] ++
                       ((if host.splitTimerWasRegistered then [HostEvent.timerUnreg] else []) ++
                         [HostEvent.timerReg]),
                     timerRegistered := true,
                     splitArgs := some (a.id, "VERTICAL",
                       (if (prefsOf src).left_sidebar then map_split_factor (59 - (prefsOf src).split_factor)
                        else 1 - map_split_factor (59 - (prefsOf src).split_factor))) })) := by
  constructor
  · intro hm
    unfold restore_sidebars
    rw [hp]
    dsimp only
    rw [if_pos hm]
  · intro hm
    cases hmain : mainAreas screen with
    | nil => exact absurd hmain hm
    | cons c cs =>
      obtain ⟨ha_mem, ha_max⟩ :=
        get_rightmost_area_spec (c :: cs)
          (cs.foldl (fun (best d : Area) =>
            if best.x + best.width < d.x + d.width then d else best) c)
          rfl
      refine ⟨cs.foldl (fun (best d : Area) =>
          if best.x + best.width < d.x + d.width then d else best) c,
        rfl, ha_mem, ha_max, ?_, ?_⟩
      · intro hso
        unfold restore_sidebars
        rw [hp]
        dsimp only
        rw [hmain, if_neg (by simp)]
        dsimp only [get_rightmost_area]
        rw [if_pos hso]
        rw [safe_area_split_fail_screen _ _ _ _ _ _ hso]
      · intro hso
        obtain ⟨na, hna, hscr⟩ := safe_area_split_succ_screen _ _ _ _ _ _ hso
        refine ⟨na, hna, ?_⟩
        unfold restore_sidebars
        rw [hp]
        dsimp only
        rw [hmain, if_neg (by simp)]
        dsimp only [get_rightmost_area]
        rw [if_neg (by rw [hso]; simp)]
        rw [hscr]
        dsimp only
        rw [List.getLast?_concat]
        dsimp only
        unfold safe_change_area_type
        rw [if_pos (by decide)]
        dsimp only
        rw [List.dropLast_concat]

/-- C2 witness: a screen whose only areas are sidebar editors has no main
area, so restore_sidebars returns False untouched (preferences resolve to
the exception fallback here). -/
theorem c2_witness :
    restore_sidebars
      { version := (4, 5, 0), splitResult := none,
        closeRaises := false, splitTimerWasRegistered := false }
      { areas := [{ id := 3, type := "OUTLINER", x := 0, y := 0,
                    width := 100, height := 100 }] }
      { screen := some { areas := [{ id := 3, type := "OUTLINER", x := 0, y := 0,
                                     width := 100, height := 100 }] } }
      { addons := none, raises := true } "editorbar" =
      some { result := false,
             screen := { areas := [{ id := 3, type := "OUTLINER", x := 0, y := 0,
                                     width := 100, height := 100 }] },
             events := [], timerRegistered := false, splitArgs := none } :=
  (c2_restore_sidebars
    { version := (4, 5, 0), splitResult := none,
      closeRaises := false, splitTimerWasRegistered := false }
    { areas := [{ id := 3, type := "OUTLINER", x := 0, y := 0,
                  width := 100, height := 100 }] }
    { screen := some { areas := [{ id := 3, type := "OUTLINER", x := 0, y := 0,
                                   width := 100, height := 100 }] } }
    { addons := none, raises := true } "editorbar" .fallback rfl).1 (by decide)

/-- C1: when every guard passes (a VIEW_3D area, a window with a screen,
check_area true) and no exception is raised, the toggle operator closes
the sidebar editors when the screen holds any OUTLINER or PROPERTIES
area, restores them otherwise, and returns FINISHED. -/
theorem c1_toggle_dispatch (host : Host) (ctx : Context) (pctx : PrefsContext)
    (pkg : String) (a : Area) (w : Window) (s : Screen)
    (ha : ctx.area = some a) (hw : ctx.window = some w) (hs : w.screen = some s)
    (hv : a.type = "VIEW_3D")
    (hc : check_area (some w) (some s) (some a) = true) :
    (has_sidebar_editors s = true →
      execute host ctx pctx pkg =
        { result := .finished, screen := some (close_sidebars host s w).1,
          events := (close_sidebars host s w).2, prefsBranch := false }) ∧
    (has_sidebar_editors s = false →
      ∀ r, restore_sidebars host s w pctx pkg = some r →
        execute host ctx pctx pkg =
          { result := .finished, screen := some r.screen, events := r.events,
            prefsBranch := false }) := by
  unfold execute
  rw [ha]
  dsimp only
  rw [if_neg (by simp [hv]), if_neg (by rw [hv]; decide), hw]
  dsimp only
  rw [hs]
  dsimp only
  rw [if_neg (by simp [hc])]
  constructor
  · intro hsb
    rw [if_pos hsb]
  · intro hsb r hr
    rw [if_neg (by simp [hsb]), hr]

/-- C1 witness: a VIEW_3D screen carrying an OUTLINER area takes the
close branch and finishes. -/
theorem c1_witness :
    execute
      { version := (4, 5, 0), splitResult := none,
        closeRaises := false, splitTimerWasRegistered := false }
      { area := some { id := 1, type := "VIEW_3D", x := 0, y := 0,
                       width := 800, height := 600 },
        window := some { screen := some { areas :=
          [{ id := 1, type := "VIEW_3D", x := 0, y := 0, width := 800, height := 600 },
           { id := 2, type := "OUTLINER", x := 800, y := 0, width := 200, height := 600 }] } } }
      { addons := none, raises := false } "editorbar" =
      { result := .finished,
        screen := some (close_sidebars
          { version := (4, 5, 0), splitResult := none,
            closeRaises := false, splitTimerWasRegistered := false }
          { areas :=
            [{ id := 1, type := "VIEW_3D", x := 0, y := 0, width := 800, height := 600 },
             { id := 2, type := "OUTLINER", x := 800, y := 0, width := 200, height := 600 }] }
          { screen := some { areas :=
            [{ id := 1, type := "VIEW_3D", x := 0, y := 0, width := 800, height := 600 },
             { id := 2, type := "OUTLINER", x := 800, y := 0, width := 200, height := 600 }] } }).1,
        events := (close_sidebars
          { version := (4, 5, 0), splitResult := none,
            closeRaises := false, splitTimerWasRegistered := false }
          { areas :=
            [{ id := 1, type := "VIEW_3D", x := 0, y := 0, width := 800, height := 600 },
             { id := 2, type := "OUTLINER", x := 800, y := 0, width := 200, height := 600 }] }
          { screen := some { areas :=
            [{ id := 1, type := "VIEW_3D", x := 0, y := 0, width := 800, height := 600 },
             { id := 2, type := "OUTLINER", x := 800, y := 0, width := 200, height := 600 }] } }).2,
        prefsBranch := false } :=
  (c1_toggle_dispatch
    { version := (4, 5, 0), splitResult := none,
      closeRaises := false, splitTimerWasRegistered := false }
    { area := some { id := 1, type := "VIEW_3D", x := 0, y := 0,
                     width := 800, height := 600 },
      window := some { screen := some { areas :=
        [{ id := 1, type := "VIEW_3D", x := 0, y := 0, width := 800, height := 600 },
         { id := 2, type := "OUTLINER", x := 800, y := 0, width := 200, height := 600 }] } } }
    { addons := none, raises := false } "editorbar"
    { id := 1, type := "VIEW_3D", x := 0, y := 0, width := 800, height := 600 }
    { screen := some { areas :=
      [{ id := 1, type := "VIEW_3D", x := 0, y := 0, width := 800, height := 600 },
       { id := 2, type := "OUTLINER", x := 800, y := 0, width := 200, height := 600 }] } }
    { areas :=
      [{ id := 1, type := "VIEW_3D", x := 0, y := 0, width := 800, height := 600 },
       { id := 2, type := "OUTLINER", x := 800, y := 0, width := 200, height := 600 }] }
    rfl rfl rfl rfl (by decide)).1 (by decide)

/-- C5: when any guard fails (missing or non-VIEW_3D area, missing
window, missing screen, or check_area false), execute returns CANCELLED,
records no host call (no split, close or type change) and leaves the
window's screen untouched. -/
theorem c5_cancelled_no_mutation (host : Host) (ctx : Context)
    (pctx : PrefsContext) (pkg : String)
    (h : ctx.area = none ∨
         (∃ a, ctx.area = some a ∧ a.type ≠ "VIEW_3D") ∨
         ctx.window = none ∨
         (∃ w, ctx.window = some w ∧ w.screen = none) ∨
         (∃ a w s, ctx.area = some a ∧ ctx.window = some w ∧ w.screen = some s ∧
            check_area (some w) (some s) (some a) = false)) :
    execute host ctx pctx pkg =
      { result := .cancelled, screen := windowScreen ctx, events := [],
        prefsBranch := false } := by
  unfold execute
  rcases h with h | ⟨a, ha, hv⟩ | h | ⟨w, hw, hs⟩ | ⟨a, w, s, ha, hw, hs, hc⟩
  · rw [h]
  · rw [ha]
    dsimp only
    rw [if_pos hv]
  · cases ha : ctx.area with
    | none => rfl
    | some a =>
      dsimp only
      by_cases hv : a.type = "VIEW_3D"
      · rw [if_neg (by simp [hv]), if_neg (by rw [hv]; decide), h]
        simp [windowScreen, h]
      · rw [if_pos hv]
  · cases ha : ctx.area with
    | none => rfl
    | some a =>
      dsimp only
      by_cases hv : a.type = "VIEW_3D"
      · rw [if_neg (by simp [hv]), if_neg (by rw [hv]; decide), hw]
        dsimp only
        rw [hs]
        simp [windowScreen, hw, hs]
      · rw [if_pos hv]
  · rw [ha]
    dsimp only
    by_cases hv : a.type = "VIEW_3D"
    · rw [if_neg (by simp [hv]), if_neg (by rw [hv]; decide), hw]
      dsimp only
      rw [hs]
      dsimp only
      rw [if_pos (by simp [hc])]
      simp [windowScreen, hw, hs]
    · rw [if_pos hv]

/-- C5 witness: with no area in the context the operator cancels and
nothing changes. -/
theorem c5_witness :
    execute
      { version := (4, 5, 0), splitResult := none,
        closeRaises := false, splitTimerWasRegistered := false }
      { area := none, window := none }
      { addons := none, raises := false } "editorbar" =
      { result := .cancelled,
        screen := windowScreen { area := none, window := none },
        events := [], prefsBranch := false } :=
  c5_cancelled_no_mutation
    { version := (4, 5, 0), splitResult := none,
      closeRaises := false, splitTimerWasRegistered := false }
    { area := none, window := none }
    { addons := none, raises := false } "editorbar" (Or.inl rfl)
